import Mathlib

/-!
Shallow embedding of the authentication controller of the `travel`
repository (src/Controllers/authController.js, routed in
src/route/userRoutes.js).

Conventions of the embedding:
* Times are naturals (milliseconds, as `Date.now()`).
* The external user store is a `List User`; `findOne`/`findById` are
  `List.find?`, and `save` replaces the record with the same id.
* `jsonwebtoken` is external: signing is modelled by a structure that
  records the payload, expiry, key and algorithm; verification inside
  `protect` is a parameter `verify : String -> Except VerifyError
  TokenPayload`, because `protect` receives the token as a string from
  the authorization header and hands it to the library.
* Node's `crypto` sha-256 hex digest and the bcrypt hash of the missing
  User model are modelled as injective tagging functions: every claim
  below depends only on their determinism as pure functions.
* JS falsiness of absent body fields is modelled by the empty string.
-/

/-- Domain error as constructed by `new AppError(message, statusCode)`
(utils/appError is outside src; its observable content is exactly the
message and the status code used by the controller). -/
structure AppError where
  message : String
  statusCode : Nat
  deriving DecidableEq, Repr

/-- Process-wide JWT configuration: JWT_SECRET, the signing algorithm and
JWT_EXPIRES_IN (as a duration in ms). -/
structure JwtConfig where
  secret : Nat
  alg : Nat
  expiresIn : Nat
  deriving DecidableEq, Repr

/-- Payload of a verified session token: the signed identity id and the
issued-at timestamp that `jwt.sign` attaches. -/
structure TokenPayload where
  id : Nat
  iat : Nat
  deriving DecidableEq, Repr

/-- A signed session token as produced by `jwt.sign({ id }, secret,
{ expiresIn })`: payload, expiry instant, and the key/algorithm it was
signed with. -/
structure SignedToken where
  payload : TokenPayload
  exp : Nat
  key : Nat
  alg : Nat
  deriving DecidableEq, Repr

/-- One record of the external user store. `password` is the stored
credential hash (`Option` so that stripping it outward is `none`);
`passwordResetToken` holds the sha-256 digest of the reset token. -/
structure User where
  id : Nat
  name : String
  email : String
  role : String
  password : Option String
  passwordChangedAt : Option Nat
  passwordResetToken : Option String
  passwordResetExpires : Option Nat
  deriving DecidableEq, Repr

/-- Body `res.status(statusCode).json({status, token, data: {user}})`
sent by `createSignedToken`. -/
structure AuthResponse where
  statusCode : Nat
  status : String
  token : SignedToken
  user : User
  deriving DecidableEq, Repr

/-- Body sent by `forgotPassword` on success. -/
structure ForgotResponse where
  statusCode : Nat
  status : String
  message : String
  deriving DecidableEq, Repr

/-- Failure modes of `jwt.verify`: `JsonWebTokenError` (bad signature,
malformed token, wrong key or algorithm) and `TokenExpiredError`. -/
inductive VerifyError where
  | invalidToken
  | expiredToken
  deriving DecidableEq, Repr

deriving instance DecidableEq for Except

/-- Models Node `crypto.createHash("sha256").update(s).digest("hex")` as
a deterministic injective function; the claims use only that the digest
is a pure function of its input. -/
def sha256Hex (s : String) : String :=
  String.append "sha256#" s

/-- Modelled from the spec: the Credential Verifier's one-way salted hash
(`hashCredential`) lives in the User model, which is not under src;
modelled as an injective tagging function. -/
def hashCredential (s : String) : String :=
  String.append "bcrypt#" s

/-- Modelled from the spec: `verifyCredential(plaintext, hash)` of the
missing User model (`user.correctPassword`), true iff the hash of the
candidate equals the stored hash. -/
def verifyCredential (plain : String) (stored : Option String) : Bool :=
  match stored with
  | some h => hashCredential plain == h
  | none => false

/-- Modelled from the spec: `changedAfter(identity, issuedAt)` of the
missing User model (`user.changedPasswordAfter(iat)`), true iff the
credential-changed timestamp is later than the issued-at timestamp. -/
def changedPasswordAfter (u : User) (iat : Nat) : Bool :=
  match u.passwordChangedAt with
  | some t => decide (iat < t)
  | none => false

/-- Modelled from the spec: the missing User model's
`createPasswordResetToken` stores the sha-256 digest of a random
plaintext and an expiry 10 minutes ahead on the identity (the random
plaintext itself is passed in as a parameter). -/
def setPasswordResetFields (u : User) (plain : String) (now : Nat) : User :=
  { u with
      passwordResetToken := some (sha256Hex plain),
      passwordResetExpires := some (now + 10 * 60 * 1000) }

/-- `User.findOne({email})`. -/
def findOneByEmail (store : List User) (email : String) : Option User :=
  store.find? (fun u => u.email == email)

/-- `User.findById(id)`. -/
def findById (store : List User) (i : Nat) : Option User :=
  store.find? (fun u => u.id == i)

/-- The conjunctive filter of the single `findOne` of `resetPassword`:
stored digest equals the hashed token AND `passwordResetExpires` is
strictly greater than now (`$gt: Date.now()`; an absent field never
matches). -/
def resetMatch (digest : String) (now : Nat) (u : User) : Bool :=
  u.passwordResetToken == some digest &&
    match u.passwordResetExpires with
    | some e => decide (now < e)
    | none => false

/-- `User.findOne({passwordResetToken: hashed, passwordResetExpires:
{$gt: Date.now()}})`. -/
def findOneByReset (store : List User) (digest : String) (now : Nat) : Option User :=
  store.find? (resetMatch digest now)

/-- `user.save()`: the store replaces the record carrying this id. -/
def saveUser (store : List User) (v : User) : List User :=
  store.map (fun w => if w.id == v.id then v else w)

/-- `signToken(id)`: `jwt.sign({id}, JWT_SECRET, {expiresIn})`, issued
at `now`. -/
def signToken (cfg : JwtConfig) (now : Nat) (i : Nat) : SignedToken :=
  { payload := { id := i, iat := now },
    exp := now + cfg.expiresIn,
    key := cfg.secret,
    alg := cfg.alg }

/-- `createSignedToken(user, statusCode, res)`: signs a token for
`user._id`, sets `user.password = undefined`, and sends
`{status: "success", token, data: {user}}`. -/
def createSignedToken (cfg : JwtConfig) (now : Nat) (user : User) (statusCode : Nat) : AuthResponse :=
  { statusCode := statusCode,
    status := "success",
    token := signToken cfg now user.id,
    user := { user with password := none } }

/-- `login`: rejects absent email/password with 400, then looks the user
up by email and checks the password; a missing user and a wrong password
share one combined check and one error. -/
def login (cfg : JwtConfig) (store : List User) (email password : String) (now : Nat) :
    Except AppError AuthResponse :=
  if email = "" ∨ password = "" then
    Except.error { message := "Enter both password and email", statusCode := 400 }
  else
    match findOneByEmail store email with
    | none =>
        Except.error { message := " Incorrect email or password", statusCode := 401 }
    | some u =>
        if verifyCredential password u.password then
          Except.ok (createSignedToken cfg now u 200)
        else
          Except.error { message := " Incorrect email or password", statusCode := 401 }

/-- True iff the first list is a prefix of the second, character by
character. -/
def charsStartsWith : List Char → List Char → Bool
  | [], _ => true
  | _ :: _, [] => false
  | p :: ps, c :: cs => p == c && charsStartsWith ps cs

/-- JS `s.startsWith(pre)`, over the characters of the strings (the
core-library `String.startsWith` does not reduce inside the kernel). -/
def jsStartsWith (s pre : String) : Bool :=
  charsStartsWith pre.data s.data

/-- Splits a character list at every space, accumulating the current
segment in reverse; the recursion of JS `split(" ")`. -/
def splitSpaceAux : List Char → List Char → List String
  | [], acc => [String.mk acc.reverse]
  | c :: cs, acc =>
      if c = ' ' then String.mk acc.reverse :: splitSpaceAux cs []
      else splitSpaceAux cs (c :: acc)

/-- JS `s.split(" ")`: splits at every single space character. -/
def jsSplitSpace (s : String) : List String :=
  splitSpaceAux s.data []

/-- Token extraction of `protect`: if the authorization header is present
and starts with "Bearer", the token is `header.split(" ")[1]`. -/
def extractToken (auth : Option String) : Option String :=
  match auth with
  | none => none
  | some h => if jsStartsWith h "Bearer" then (jsSplitSpace h).get? 1 else none

/-- The token `protect` ends up with: `if (!token)` treats both an
undefined split result and an empty string as absent. -/
def bearerToken (auth : Option String) : Option String :=
  match extractToken auth with
  | some t => if t = "" then none else some t
  | none => none

/-- Outcome of the `protect` middleware: `next(new AppError(...))`, an
exception thrown by `jwt.verify` and forwarded raw by `catchAsync`
(`protect` has no try/catch around the verification), or `req.user = u;
next()`. -/
inductive ProtectResult where
  | appErr (e : AppError)
  | rawErr (e : VerifyError)
  | ok (ctxUser : User)
  deriving DecidableEq, Repr

/-- True iff the outcome is an `AppError` with status 401. -/
def ProtectResult.isAppErr401 : ProtectResult → Bool
  | .appErr e => e.statusCode == 401
  | _ => false

/-- `protect`: extract the bearer token, verify it (`jwt.verify` is the
parameter `verify`; its exceptions are not caught), resolve the identity
by the decoded id, reject a stale session, else attach the user. -/
def protect (verify : String → Except VerifyError TokenPayload)
    (store : List User) (auth : Option String) : ProtectResult :=
  match bearerToken auth with
  | none =>
      .appErr { message := "You are not logged in. Confirm Passwords are the same",
                statusCode := 401 }
  | some t =>
      match verify t with
      | .error e => .rawErr e
      | .ok d =>
          match findById store d.id with
          | none =>
              .appErr { message := "The user by this ID no longer exists",
                        statusCode := 401 }
          | some u =>
              if changedPasswordAfter u d.iat then
                .appErr { message := "The user changed his/her ID recently!",
                          statusCode := 401 }
              else
                .ok u

/-- `forgotPassword`: find the user by email (404 if absent), store the
reset digest and expiry, save, then ask the notifier to deliver the
plaintext (`deliveryOk` is the notifier outcome); on delivery failure,
clear both fields, save again and fail with 500. Returns the response
together with the resulting store. -/
def forgotPassword (store : List User) (email plainToken : String) (now : Nat)
    (deliveryOk : Bool) : Except AppError ForgotResponse × List User :=
  match findOneByEmail store email with
  | none =>
      (Except.error { message := "There is no user of the email address!", statusCode := 404 },
       store)
  | some u =>
      let u1 := setPasswordResetFields u plainToken now
      let store1 := saveUser store u1
      if deliveryOk then
        (Except.ok { statusCode := 200, status := "success", message := "Token is sent to email" },
         store1)
      else
        (Except.error
           { message := "There was an error sending the email. Try some time later",
             statusCode := 500 },
         saveUser store1
           { u1 with passwordResetToken := none, passwordResetExpires := none })

/-- The record state persisted by a successful `resetPassword`: the
controller assigns the new password and clears both reset fields before
`user.save()`; the save hooks of the missing User model (modelled from
the spec) re-hash the credential and update the credential-changed
timestamp. -/
def applyPasswordReset (password : String) (now : Nat) (u : User) : User :=
  { u with
      password := some (hashCredential password),
      passwordChangedAt := some now,
      passwordResetToken := none,
      passwordResetExpires := none }

/-- `resetPassword`: hash the URL token, look the user up by digest and
unexpired expiry in a single `findOne`, fail 400 if absent; otherwise set
the new credential, clear the reset fields, save (the save re-runs the
store's validators and credential hashing, which live in the missing User
model and are modelled from the spec: password must equal
confirmPassword and meet the length floor, the credential is re-hashed
and the credential-changed timestamp updated), then issue a session. -/
def resetPassword (cfg : JwtConfig) (store : List User)
    (tok password confirmPassword : String) (now : Nat) :
    Except AppError (AuthResponse × List User) :=
  match findOneByReset store (sha256Hex tok) now with
  | none =>
      Except.error { message := "The Token is invalid or expired", statusCode := 400 }
  | some u =>
      if password ≠ confirmPassword then
        Except.error { message := "Passwords are not the same", statusCode := 400 }
      else if password.length < 8 then
        Except.error { message := "Password is too short", statusCode := 400 }
      else
        Except.ok (createSignedToken cfg now (applyPasswordReset password now u) 200,
                   saveUser store (applyPasswordReset password now u))

/-! Concrete values used by witnesses. -/

/-- A concrete JWT configuration for witnesses. -/
def cfg0 : JwtConfig := { secret := 7, alg := 1, expiresIn := 3600000 }

/-- A concrete stored user: credential hash of "secret12", an active
reset digest for plaintext "tok1" expiring at t = 600000. -/
def uAna : User :=
  { id := 1, name := "Ana", email := "ana@x.com", role := "standard",
    password := some (hashCredential "secret12"),
    passwordChangedAt := none,
    passwordResetToken := some (sha256Hex "tok1"),
    passwordResetExpires := some 600000 }

/-- Status code of an error outcome of `login`/`resetPassword`. -/
def errorStatus (r : Except AppError AuthResponse) : Option Nat :=
  match r with
  | Except.error e => some e.statusCode
  | Except.ok _ => none

/-! Theorems. -/

/-- C1: for every login request with non-empty email and password, the
"no identity has this email" case and the "identity exists but the
password does not verify" case produce the very same error value — same
kind, same message, status 401 — so the two runs are indistinguishable
to the caller. -/
theorem login_enumeration_parity (cfg : JwtConfig) (store : List User)
    (email pw : String) (now : Nat) (he : email ≠ "") (hp : pw ≠ "")
    (h : findOneByEmail store email = none ∨
      ∃ u, findOneByEmail store email = some u ∧ verifyCredential pw u.password = false) :
    login cfg store email pw now =
      Except.error { message := " Incorrect email or password", statusCode := 401 } := by
  unfold login
  rw [if_neg (by simp [he, hp])]
  rcases h with h | ⟨u, hu, hv⟩
  · rw [h]
  · rw [hu]
    simp [hv]

/-- Witness for C1: a concrete store in which the email is unknown. -/
theorem login_enumeration_parity_w :
    login cfg0 [uAna] "bob@x.com" "whatever" 0 =
      Except.error { message := " Incorrect email or password", statusCode := 401 } :=
  login_enumeration_parity cfg0 [uAna] "bob@x.com" "whatever" 0
    (by decide) (by decide) (Or.inl (by decide))

/-- C8 counterexample: a login request with an absent (empty) password
fails with status 400, not with the 401 the claim states. -/
theorem login_missing_password_cex :
    errorStatus (login cfg0 [uAna] "ana@x.com" "" 0) = some 400 ∧
    (some 400 : Option Nat) ≠ some 401 :=
  ⟨rfl, by decide⟩

/-- C8 amended: for every login request in which the email or the
password is absent, login fails with status 400 and the message "Enter
both password and email" — a status different from the 401 used for
identity-not-found and password mismatch. -/
theorem login_missing_fields_status (cfg : JwtConfig) (store : List User)
    (email pw : String) (now : Nat) (h : email = "" ∨ pw = "") :
    login cfg store email pw now =
      Except.error { message := "Enter both password and email", statusCode := 400 } := by
  unfold login
  rw [if_pos h]

/-- Witness for the amended C8: concrete request with empty password. -/
theorem login_missing_fields_status_w :
    login cfg0 [uAna] "ana@x.com" "" 0 =
      Except.error { message := "Enter both password and email", statusCode := 400 } :=
  login_missing_fields_status cfg0 [uAna] "ana@x.com" "" 0 (Or.inr rfl)

/-- C6: every response produced by `createSignedToken` (the single exit
point of signup, login, resetPassword and updatePassword) carries a
token whose encoded id is exactly the id of the user record placed in
the response body, and that user record has its credential hash
stripped (`password = undefined`). -/
theorem createSignedToken_binds_id_and_strips (cfg : JwtConfig) (now : Nat)
    (user : User) (sc : Nat) :
    (createSignedToken cfg now user sc).token.payload.id = user.id ∧
    (createSignedToken cfg now user sc).user.id = user.id ∧
    (createSignedToken cfg now user sc).user.password = none :=
  ⟨rfl, rfl, rfl⟩

/-- A verifier that rejects every token as `JsonWebTokenError`. -/
def vInvalid : String → Except VerifyError TokenPayload :=
  fun _ => Except.error VerifyError.invalidToken

/-- A verifier that rejects every token as `TokenExpiredError`. -/
def vExpired : String → Except VerifyError TokenPayload :=
  fun _ => Except.error VerifyError.expiredToken

/-- A verifier accepting exactly the token string "tok1", decoding it to
identity 1 issued at time 100. -/
def vDemo : String → Except VerifyError TokenPayload :=
  fun s => if s = "tok1" then Except.ok { id := 1, iat := 100 }
           else Except.error VerifyError.invalidToken

/-- The demo user with a credential change recorded at time 101, later
than the demo token's issuance time 100. -/
def uStale : User := { uAna with passwordChangedAt := some 101 }

/-- C2: a protected request whose token still verifies (yielding payload
`d` issued at `d.iat`) is rejected with a 401 `AppError` whenever the
resolved identity's credential-changed timestamp is strictly later than
the issuance time, so the handler is never reached with a stale
session. -/
theorem protect_rejects_stale (verify : String → Except VerifyError TokenPayload)
    (store : List User) (auth : Option String) (t : String) (d : TokenPayload)
    (u : User) (tc : Nat)
    (ht : bearerToken auth = some t) (hv : verify t = Except.ok d)
    (hu : findById store d.id = some u)
    (hc : u.passwordChangedAt = some tc) (hlt : d.iat < tc) :
    protect verify store auth =
      ProtectResult.appErr
        { message := "The user changed his/her ID recently!", statusCode := 401 } := by
  unfold protect
  simp only [ht, hv, hu]
  simp [changedPasswordAfter, hc, hlt]

/-- Witness for C2: token issued at 100, credential changed at 101. -/
theorem protect_rejects_stale_w :
    protect vDemo [uStale] (some "Bearer tok1") =
      ProtectResult.appErr
        { message := "The user changed his/her ID recently!", statusCode := 401 } :=
  protect_rejects_stale vDemo [uStale] (some "Bearer tok1") "tok1"
    { id := 1, iat := 100 } uStale 101 (by decide) (by decide) (by decide)
    (by decide) (by decide)

/-- C7: `protect` contains no try/catch around `jwt.verify` (the line is
even marked TODO in the source), so both verification failures leave the
middleware as the raw library exception — not as an `AppError` carrying
status 401. -/
theorem protect_uncaught_verify_error :
    protect vInvalid [] (some "Bearer bad.token") =
      ProtectResult.rawErr VerifyError.invalidToken ∧
    (protect vInvalid [] (some "Bearer bad.token")).isAppErr401 = false ∧
    protect vExpired [] (some "Bearer bad.token") =
      ProtectResult.rawErr VerifyError.expiredToken ∧
    (protect vExpired [] (some "Bearer bad.token")).isAppErr401 = false := by
  refine ⟨by decide, by decide, by decide, by decide⟩

/-- C9: the Access Gate runs its stages in order: a request with no
extractable bearer token fails 401 at extraction; a verified token whose
decoded id resolves to no identity fails 401; and the gate returns
`ok u` (attaching `u` as the request's user) exactly when a token was
extracted, verified, resolved to `u`, and `u`'s credential was not
changed after issuance. -/
theorem protect_pipeline (verify : String → Except VerifyError TokenPayload)
    (store : List User) (auth : Option String) :
    (bearerToken auth = none →
      protect verify store auth =
        ProtectResult.appErr
          { message := "You are not logged in. Confirm Passwords are the same",
            statusCode := 401 }) ∧
    (∀ t d, bearerToken auth = some t → verify t = Except.ok d →
      findById store d.id = none →
      protect verify store auth =
        ProtectResult.appErr
          { message := "The user by this ID no longer exists", statusCode := 401 }) ∧
    (∀ u, protect verify store auth = ProtectResult.ok u →
      ∃ t d, bearerToken auth = some t ∧ verify t = Except.ok d ∧
        findById store d.id = some u ∧ changedPasswordAfter u d.iat = false) := by
  refine ⟨?_, ?_, ?_⟩
  · intro h
    unfold protect
    rw [h]
  · intro t d ht hv hu
    unfold protect
    simp only [ht, hv, hu]
  · intro u h
    unfold protect at h
    cases hb : bearerToken auth with
    | none => simp only [hb] at h; exact absurd h (by simp)
    | some t =>
      simp only [hb] at h
      cases hv : verify t with
      | error e => simp only [hv] at h; exact absurd h (by simp)
      | ok d =>
        simp only [hv] at h
        cases hu : findById store d.id with
        | none => simp only [hu] at h; exact absurd h (by simp)
        | some v =>
          simp only [hu] at h
          cases hcb : changedPasswordAfter v d.iat with
          | true => simp [hcb] at h
          | false =>
            simp [hcb] at h
            subst h
            exact ⟨t, d, rfl, hv, hu, hcb⟩

/-- The boolean filter of the reset lookup holds exactly when the stored
digest equals the given one and the stored expiry is strictly in the
future. -/
theorem resetMatch_eq_true_iff (digest : String) (now : Nat) (u : User) :
    resetMatch digest now u = true ↔
      (u.passwordResetToken = some digest ∧
        ∃ e, u.passwordResetExpires = some e ∧ now < e) := by
  unfold resetMatch
  cases hpe : u.passwordResetExpires with
  | none => simp [hpe]
  | some e => simp [hpe]

/-- The single conjunctive lookup of `resetPassword` fails exactly when
no stored record satisfies both conditions at once. -/
theorem findOneByReset_eq_none_iff (store : List User) (digest : String) (now : Nat) :
    findOneByReset store digest now = none ↔
      ∀ u ∈ store, ¬(u.passwordResetToken = some digest ∧
        ∃ e, u.passwordResetExpires = some e ∧ now < e) := by
  unfold findOneByReset
  rw [List.find?_eq_none]
  exact forall_congr' fun u => forall_congr' fun _ =>
    not_congr (resetMatch_eq_true_iff digest now u)

/-- C3: `resetPassword` fails with the invalid-token error (message "The
Token is invalid or expired", status 400) exactly when no identity in
the store carries the sha-256 digest of the plaintext token together
with an expiry strictly in the future — one indistinguishable error for
both conditions, checked in a single lookup, and an expiry of `e`
accepts precisely the times `now < e`. -/
theorem resetPassword_invalid_token_iff (cfg : JwtConfig) (store : List User)
    (tok pw cpw : String) (now : Nat) :
    (resetPassword cfg store tok pw cpw now =
        Except.error { message := "The Token is invalid or expired", statusCode := 400 })
      ↔ ∀ u ∈ store, ¬(u.passwordResetToken = some (sha256Hex tok) ∧
          ∃ e, u.passwordResetExpires = some e ∧ now < e) := by
  rw [← findOneByReset_eq_none_iff]
  unfold resetPassword
  cases hf : findOneByReset store (sha256Hex tok) now with
  | none => simp
  | some u =>
    apply iff_of_false
    · intro hcontra
      simp only [] at hcontra
      by_cases h1 : pw ≠ cpw
      · rw [if_pos h1] at hcontra
        exact absurd hcontra (by decide)
      · rw [if_neg h1] at hcontra
        by_cases h2 : pw.length < 8
        · rw [if_pos h2] at hcontra
          exact absurd hcontra (by decide)
        · rw [if_neg h2] at hcontra
          exact absurd hcontra (by simp)
    · simp

/-- Witness for C3: the demo token digest is stored with expiry 600000,
and at exactly that instant (and after) the call is rejected with the
invalid-token error, matching the strict `$gt` bound. -/
theorem resetPassword_invalid_token_iff_w :
    resetPassword cfg0 [uAna] "tok1" "newpass1" "newpass1" 600000 =
      Except.error { message := "The Token is invalid or expired", statusCode := 400 } :=
  (resetPassword_invalid_token_iff cfg0 [uAna] "tok1" "newpass1" "newpass1" 600000).mpr
    (by decide)

/-- C4: a reset token is single-use. If at most one stored identity
carries the token's digest and a first `resetPassword` call succeeds
(returning the response and the updated store `st2`), then a second call
against `st2` with the same plaintext token fails with the invalid-token
error, at any later time and with any new passwords: the success cleared
the digest and expiry before persisting. -/
theorem resetPassword_single_use (cfg cfg2 : JwtConfig) (store : List User)
    (tok pw cpw pw2 cpw2 : String) (now now2 : Nat) (resp : AuthResponse)
    (st2 : List User)
    (huniq : ∀ u ∈ store, ∀ v ∈ store,
      u.passwordResetToken = some (sha256Hex tok) →
      v.passwordResetToken = some (sha256Hex tok) → u.id = v.id)
    (h : resetPassword cfg store tok pw cpw now = Except.ok (resp, st2)) :
    resetPassword cfg2 st2 tok pw2 cpw2 now2 =
      Except.error { message := "The Token is invalid or expired", statusCode := 400 } := by
  unfold resetPassword at h
  cases hf : findOneByReset store (sha256Hex tok) now with
  | none => rw [hf] at h; exact absurd h (by simp)
  | some u =>
    rw [hf] at h
    simp only [] at h
    by_cases h1 : pw ≠ cpw
    · rw [if_pos h1] at h; exact absurd h (by simp)
    · rw [if_neg h1] at h
      by_cases h2 : pw.length < 8
      · rw [if_pos h2] at h; exact absurd h (by simp)
      · rw [if_neg h2] at h
        simp only [Except.ok.injEq, Prod.mk.injEq] at h
        obtain ⟨-, hst⟩ := h
        have hu_mem : u ∈ store := List.mem_of_find?_eq_some hf
        have hu_match : resetMatch (sha256Hex tok) now u = true := List.find?_some hf
        have hu_digest : u.passwordResetToken = some (sha256Hex tok) :=
          ((resetMatch_eq_true_iff _ _ _).mp hu_match).1
        have hnone : findOneByReset st2 (sha256Hex tok) now2 = none := by
          subst hst
          apply List.find?_eq_none.mpr
          intro v hv
          rcases List.mem_map.mp hv with ⟨w, hw, rfl⟩
          cases hid : (w.id == (applyPasswordReset pw now u).id) with
          | true =>
            simp only [hid, if_true]
            simp [resetMatch, applyPasswordReset]
          | false =>
            simp only [hid, Bool.false_eq_true, if_false]
            intro hm
            have hw_digest : w.passwordResetToken = some (sha256Hex tok) :=
              ((resetMatch_eq_true_iff _ _ _).mp hm).1
            have hwid : w.id = u.id := huniq w hw u hu_mem hw_digest hu_digest
            have : (w.id == (applyPasswordReset pw now u).id) = true := by
              have hida : (applyPasswordReset pw now u).id = u.id := rfl
              rw [hida, hwid]
              exact beq_self_eq_true u.id
            rw [this] at hid
            cases hid
        unfold resetPassword
        rw [hnone]

/-- The store after the successful demo reset: Ana with the re-hashed
new credential and the reset fields cleared. -/
def uAnaReset : User := applyPasswordReset "newpass1" 0 uAna

/-- Witness for C4: the first call on the demo store succeeds and
consumes the token; the replay at time 5 fails with the invalid-token
error. -/
theorem resetPassword_single_use_w :
    resetPassword cfg0 [uAnaReset] "tok1" "newpass22" "newpass22" 5 =
      Except.error { message := "The Token is invalid or expired", statusCode := 400 } :=
  resetPassword_single_use cfg0 cfg0 [uAna] "tok1" "newpass1" "newpass1"
    "newpass22" "newpass22" 0 5 (createSignedToken cfg0 0 uAnaReset 200) [uAnaReset]
    (by decide) (by decide)

/-- A member of the store after a save is either the saved record or an
untouched record with a different id. -/
theorem mem_saveUser (store : List User) (x v : User) (hv : v ∈ saveUser store x) :
    v = x ∨ (v ∈ store ∧ (v.id == x.id) = false) := by
  unfold saveUser at hv
  rcases List.mem_map.mp hv with ⟨w, hw, hw2⟩
  cases hid : (w.id == x.id) with
  | true =>
    rw [hid] at hw2
    simp only [if_true] at hw2
    exact Or.inl hw2.symm
  | false =>
    rw [hid] at hw2
    simp only [Bool.false_eq_true, if_false] at hw2
    subst hw2
    exact Or.inr ⟨hw, hid⟩

/-- C5: when the identity was found and the notifier call fails,
`forgotPassword` responds with the 500 delivery error and the persisted
store no longer holds any reset digest or expiry on that identity: the
compensating second save cleared both fields. -/
theorem forgotPassword_cleanup (store : List User) (email tok : String)
    (now : Nat) (u : User) (h : findOneByEmail store email = some u) :
    (forgotPassword store email tok now false).1 =
      Except.error
        { message := "There was an error sending the email. Try some time later",
          statusCode := 500 } ∧
    ∀ v ∈ (forgotPassword store email tok now false).2,
      v.id = u.id → v.passwordResetToken = none ∧ v.passwordResetExpires = none := by
  unfold forgotPassword
  simp only [h]
  refine ⟨rfl, ?_⟩
  intro v hv hvid
  rcases mem_saveUser _ _ v hv with hv2 | ⟨-, hid⟩
  · subst hv2
    exact ⟨rfl, rfl⟩
  · exfalso
    have hidt : (v.id ==
        ({ setPasswordResetFields u tok now with
            passwordResetToken := none, passwordResetExpires := none } : User).id) = true := by
      have hid2 : ({ setPasswordResetFields u tok now with
          passwordResetToken := none, passwordResetExpires := none } : User).id = u.id := rfl
      rw [hid2, hvid]
      exact beq_self_eq_true u.id
    rw [hidt] at hid
    cases hid

/-- Witness for C5: Ana's record, delivery failing. -/
theorem forgotPassword_cleanup_w :
    (forgotPassword [uAna] "ana@x.com" "tokX" 0 false).1 =
      Except.error
        { message := "There was an error sending the email. Try some time later",
          statusCode := 500 } :=
  (forgotPassword_cleanup [uAna] "ana@x.com" "tokX" 0 uAna (by decide)).1

/-- C10: when the identity was found and delivery succeeds, the body of
the `forgotPassword` response is the fixed success body — status 200,
status text "success", the constant message "Token is sent to email" —
and is therefore identical for any two generated plaintext tokens: the
plaintext reaches the outside only through the notifier call. -/
theorem forgotPassword_success_constant (store : List User) (email t1 t2 : String)
    (now : Nat) (u : User) (h : findOneByEmail store email = some u) :
    (forgotPassword store email t1 now true).1 =
      Except.ok
        { statusCode := 200, status := "success", message := "Token is sent to email" } ∧
    (forgotPassword store email t1 now true).1 =
      (forgotPassword store email t2 now true).1 := by
  unfold forgotPassword
  simp only [h]
  exact ⟨rfl, rfl⟩

/-- Witness for C10: Ana's record, two distinct plaintext tokens. -/
theorem forgotPassword_success_constant_w :
    (forgotPassword [uAna] "ana@x.com" "tokA" 0 true).1 =
      Except.ok
        { statusCode := 200, status := "success", message := "Token is sent to email" } :=
  (forgotPassword_success_constant [uAna] "ana@x.com" "tokA" "tokB" 0 uAna (by decide)).1

/-- Witness for C9: a request with no authorization header is rejected
at the extraction stage with the 401 not-logged-in error. -/
theorem protect_pipeline_w :
    protect vInvalid [] none =
      ProtectResult.appErr
        { message := "You are not logged in. Confirm Passwords are the same",
          statusCode := 401 } :=
  (protect_pipeline vInvalid [] none).1 rfl
